import Mathlib

/-!
Verification development for the TextAnnotator lifecycle controller
(src/src/TextAnnotator.jsx).

Shallow embedding conventions:
* JS objects are Lean structures.  Each annotation-shaped object and each
  relation carries a `ref : Nat` field modelling JavaScript object identity:
  `clone()` copies every field but allocates a fresh `ref` (drawn from the
  world's `fresh` counter), so two values with the same `ref` denote the same
  JS object, and a value whose `ref` equals a stored value's `ref` is an alias
  of internal state, not a detached copy.
* React `setState(patch, callback)` is modelled synchronously: apply the patch,
  then run the callback; `requestAnimationFrame(cb)` is modelled as running
  `cb` after the statements that precede it, preserving program order.
* Names containing the source word for a content-anchored note are shortened
  to `Anno` (e.g. the source's selectedAnnotation field appears here as
  `selectedAnno`); everything else keeps the source spelling.
* The external collaborators (Highlighter, RelationsLayer, SelectionHandler,
  the client-core clone/toAnnotation helpers) live outside src/ and are
  modelled from the spec; each such definition is marked `Modelled from the
  spec:`.
* Host callbacks are recorded in an `events` list; internal effect ordering
  (drawing reset, state clearing, id swap, dependent propagation, engine
  removal, host notification) is recorded in a `log` list of `Act`s, in
  the order the source performs the effects.
-/

/-- Modelled from the spec: an annotation body; `draft` is the optional draft
marker that the headless create path strips (`{ draft, ...rest } => rest`). -/
structure Body where
  value : String
  draft : Option Bool
deriving DecidableEq

/-- Modelled from the spec: an annotation-shaped object (also used for the
transient selection, distinguished by `isSelection`), with `ref` as object
identity. -/
structure Anno where
  ref : Nat
  id : String
  bodies : List Body
  isSelection : Bool
  readOnly : Bool
deriving DecidableEq

/-- Modelled from the spec: `clone()` from the client core — copy all fields,
fresh object identity. -/
def Anno.cloneWith (a : Anno) (r : Nat) : Anno :=
  { a with ref := r }

/-- Modelled from the spec: `clone({ body : bodies.map(strip draft) })` — clone
with all draft markers stripped from the bodies. -/
def Anno.undraftClone (a : Anno) (r : Nat) : Anno :=
  { a with ref := r, bodies := a.bodies.map (fun b => { b with draft := none }) }

/-- Modelled from the spec: `toAnnotation()` turns a transient selection into a
proper annotation. -/
def Anno.toAnno (a : Anno) : Anno :=
  { a with isSelection := false }

/-- Modelled from the spec: `isEqual` identity comparison used by
`removeAnnotation` — annotations are identified by their `id`. -/
def Anno.isEqual (a b : Anno) : Bool :=
  a.id == b.id

/-- Modelled from the spec: a rendered highlight span; the Highlight Engine
owns the mapping from annotation identity to spans.  `elem` is the opaque DOM
element handle; the span also exposes its annotation (`spans[0].annotation`). -/
structure Span where
  elem : Nat
  anno : Anno
deriving DecidableEq

/-- Modelled from the spec: the Highlight Engine state — one span per stored
annotation, keyed by annotation id, plus an allocator for element handles. -/
structure Highlighter where
  spans : List Span
  nextElem : Nat
deriving DecidableEq

/-- Modelled from the spec: add-or-replace keyed by id; if `previous` is given,
the old entry is located (by previous id) and replaced in place. -/
def Highlighter.addOrUpdateAnno (hl : Highlighter) (a : Anno) (previous : Option Anno) : Highlighter :=
  if hl.spans.any (fun s => s.anno.id == (previous.getD a).id) then
    { hl with spans := hl.spans.map (fun s =>
        if s.anno.id == (previous.getD a).id then { s with anno := a } else s) }
  else
    { hl with spans := hl.spans ++ [{ elem := hl.nextElem, anno := a }], nextElem := hl.nextElem + 1 }

/-- Modelled from the spec: `findAnnotationSpans` — the spans currently
rendered for the given annotation's id. -/
def Highlighter.findAnnoSpans (hl : Highlighter) (a : Anno) : List Span :=
  hl.spans.filter (fun s => s.anno.id == a.id)

/-- Modelled from the spec: remove the annotation (keyed by id); a no-op when
the id is not present. -/
def Highlighter.removeAnno (hl : Highlighter) (a : Anno) : Highlighter :=
  { hl with spans := hl.spans.filter (fun s => !(s.anno.id == a.id)) }

/-- Whether the Highlight Engine currently stores an annotation with this id. -/
def Highlighter.containsId (hl : Highlighter) (i : String) : Bool :=
  hl.spans.any (fun s => s.anno.id == i)

/-- Modelled from the spec: `overrideId(id, forcedId)` — swap the stored
annotation's id, returning the updated authoritative object; `none` (and no
change) when the id is absent. -/
def Highlighter.overrideId (hl : Highlighter) (oldId forcedId : String) : Option Anno × Highlighter :=
  match hl.spans.find? (fun s => s.anno.id == oldId) with
  | some s =>
      let updated := { s.anno with id := forcedId }
      (some updated,
       { hl with spans := hl.spans.map (fun t => if t.anno.id == oldId then { t with anno := updated } else t) })
  | none => (none, hl)

/-- Modelled from the spec: a relation — wraps its own annotation-shaped
payload and an ordered pair of endpoint references to annotation ids. -/
structure Relation where
  ref : Nat
  id : String
  anno : Anno
  startId : String
  endId : String
deriving DecidableEq

/-- Whether this relation's endpoint set includes the given annotation id. -/
def Relation.refsId (r : Relation) (aid : String) : Bool :=
  r.startId == aid || r.endId == aid

/-- Modelled from the spec: the Relation Layer state — stored relations plus
the drawing sub-mode flags (`drawing`: drawing mode on; `inProgress`: an
in-progress connector exists; `readOnly`: layer mutability). -/
structure RelationsLayer where
  relations : List Relation
  drawing : Bool
  inProgress : Bool
  readOnly : Bool
deriving DecidableEq

/-- Modelled from the spec: `destroyConnectionsFor(a)` — destroy every relation
whose endpoint set includes `a`'s id; also report the destroyed relations. -/
def RelationsLayer.destroyConnectionsFor (rl : RelationsLayer) (a : Anno) : RelationsLayer × List Relation :=
  ({ rl with relations := rl.relations.filter (fun r => !(r.refsId a.id)) },
   rl.relations.filter (fun r => r.refsId a.id))

/-- Modelled from the spec: add-or-replace keyed by id, same replace-in-place
contract as the Highlight Engine. -/
def RelationsLayer.addOrUpdateRelation (rl : RelationsLayer) (r : Relation) (previous : Option Relation) : RelationsLayer :=
  if rl.relations.any (fun x => x.id == (previous.getD r).id) then
    { rl with relations := rl.relations.map (fun x => if x.id == (previous.getD r).id then r else x) }
  else
    { rl with relations := rl.relations ++ [r] }

/-- Modelled from the spec: `overrideTargetAnnotation(original, updated)` —
rewrite every endpoint reference equal to the original annotation's id to the
updated annotation's id; a no-op when the swap did not produce an updated
annotation. -/
def RelationsLayer.overrideTargetAnno (rl : RelationsLayer) (original : Anno) (updated : Option Anno) : RelationsLayer :=
  match updated with
  | none => rl
  | some u =>
      { rl with relations := rl.relations.map (fun r =>
          { r with startId := if r.startId == original.id then u.id else r.startId,
                   endId := if r.endId == original.id then u.id else r.endId }) }

/-- Modelled from the spec: swap a stored relation's id. -/
def RelationsLayer.overrideRelationId (rl : RelationsLayer) (oldId forcedId : String) : RelationsLayer :=
  { rl with relations := rl.relations.map (fun r => if r.id == oldId then { r with id := forcedId } else r) }

/-- Modelled from the spec: remove the relation (keyed by id). -/
def RelationsLayer.removeRelation (rl : RelationsLayer) (r : Relation) : RelationsLayer :=
  { rl with relations := rl.relations.filter (fun x => !(x.id == r.id)) }

/-- Modelled from the spec: reset the in-progress connector. -/
def RelationsLayer.resetDrawing (rl : RelationsLayer) : RelationsLayer :=
  { rl with inProgress := false }

/-- The controller's React component state (`this.state`). -/
structure CState where
  selectedAnno : Option Anno
  selectedDOMElement : Option Nat
  selectedRelation : Option Relation
  readOnly : Bool
  widgets : List String
  editorDisabled : Bool
deriving DecidableEq

/-- Second argument handed to the created callback: `null`, a clone of the
previous annotation, or the curried relation-id override bound to an id. -/
inductive CreatedArg where
  | noArg : CreatedArg
  | prevClone : Anno → CreatedArg
  | overrideFn : String → CreatedArg
deriving DecidableEq

/-- Outbound host callbacks, with the exact payload objects passed. -/
inductive HostEvent where
  | annoSelected : Anno → Nat → HostEvent
  | annoCreated : Anno → CreatedArg → HostEvent
  | annoUpdated : Anno → Option Anno → HostEvent
  | annoDeleted : Anno → HostEvent
  | cancelSelected : Option Anno → HostEvent
deriving DecidableEq

/-- Internal effects whose relative order the source fixes. -/
inductive Act where
  | resetDrawingAct : Act
  | clearEditorsAct : Act
  | relationDestroyed : String → Act
  | clearRawSelection : Act
  | removeFromHighlighter : String → Act
  | swapAnnoId : String → String → Act
  | propagateToRelations : String → String → Act
  | notifyDeleted : String → Act
deriving DecidableEq

/-- The whole observable world: controller state, both engines, the selection
handler flags, the clone allocator, the host-event list and the effect log. -/
structure World where
  st : CState
  highlighter : Highlighter
  relationsLayer : RelationsLayer
  selEnabled : Bool
  selReadOnly : Bool
  pendingSelection : Bool
  noselectClass : Bool
  fresh : Nat
  events : List HostEvent
  log : List Act
deriving DecidableEq

def World.emit (w : World) (e : HostEvent) : World :=
  { w with events := w.events ++ [e] }

def World.logAct (w : World) (a : Act) : World :=
  { w with log := w.log ++ [a] }

/-- Construction-time configuration (the subset the claims need). -/
structure Config where
  readOnly : Bool
  widgets : List String
  disableEditor : Bool
deriving DecidableEq

/-- The world right after `componentDidMount`: empty engines, selection
enabled, drawing off, layer read-only, no events yet. -/
def initWorld (cfg : Config) : World :=
  { st := { selectedAnno := none, selectedDOMElement := none, selectedRelation := none,
            readOnly := cfg.readOnly, widgets := cfg.widgets, editorDisabled := cfg.disableEditor },
    highlighter := { spans := [], nextElem := 0 },
    relationsLayer := { relations := [], drawing := false, inProgress := false, readOnly := true },
    selEnabled := true, selReadOnly := cfg.readOnly,
    pendingSelection := false, noselectClass := false,
    fresh := 0, events := [], log := [] }

/-- `clearState`: null out the selected annotation and DOM element, and
re-enable the selection handler. -/
def clearState (w : World) : World :=
  { w with st := { w.st with selectedAnno := none, selectedDOMElement := none },
           selEnabled := true }

/-- `onCancelAnnotation`: clear state, clear the pending raw selection, notify
the host with the annotation that was being edited (passed through as-is). -/
def onCancelAnno (w : World) (a : Option Anno) : World :=
  let w1 := clearState w
  let w2 := { w1 with pendingSelection := false }
  w2.emit (.cancelSelected a)

/-- `handleEscape`: on key 27, invoke the cancel path with no annotation. -/
def handleEscape (which : Nat) (w : World) : World :=
  if which = 27 then onCancelAnno w none else w

/-- `onChanged`: disable selection outside the editor on the first change. -/
def onChanged (w : World) : World :=
  { w with selEnabled := false }

/-- `onCreateOrUpdateAnnotation(method)(annotation, previous)`: clone the
confirmed annotation, push the clone into the Highlight Engine (add-or-replace),
invoke the host callback named by `method` with the clone and a clone of
`previous` (or null), then select the just-written annotation and the first
span the Highlight Engine now reports for it. -/
def onCreateOrUpdateAnno (w : World) (created : Bool) (a : Anno) (previous : Option Anno) : World :=
  let updatedAnno := a.cloneWith w.fresh
  let w1 := { w with fresh := w.fresh + 1 }
  let w2 := { w1 with highlighter := w1.highlighter.addOrUpdateAnno updatedAnno previous }
  let prevArg : Option Anno := previous.map (fun p => p.cloneWith w2.fresh)
  let w3 := { w2 with fresh := if previous.isSome then w2.fresh + 1 else w2.fresh }
  let w4 := w3.emit (if created then
      HostEvent.annoCreated updatedAnno (match prevArg with
        | some p => CreatedArg.prevClone p
        | none => CreatedArg.noArg)
    else
      HostEvent.annoUpdated updatedAnno prevArg)
  { w4 with st := { w4.st with
      selectedAnno := some updatedAnno,
      selectedDOMElement := ((w4.highlighter.findAnnoSpans updatedAnno).head?).map (fun s => s.elem) } }

/-- `onNormalSelect`: on a non-null selection, fully clear the previous
selection then set the new one; if the selection references an existing
annotation, also notify the host with a clone.  On a null selection, clear
state. -/
def onNormalSelect (w : World) (evt : Option (Anno × Nat)) : World :=
  match evt with
  | some (selection, element) =>
      let w1 := { w with st := { w.st with selectedAnno := none, selectedDOMElement := none } }
      let w2 := { w1 with st := { w1.st with selectedAnno := some selection, selectedDOMElement := some element } }
      if selection.isSelection then w2
      else
        let w3 := w2.emit (.annoSelected (selection.cloneWith w2.fresh) element)
        { w3 with fresh := w2.fresh + 1 }
  | none => clearState w

/-- `onHeadlessSelect`: like the normal path, but a fresh draft selection is
stripped of draft markers and fed straight into the create path, with no popup
ever rendered. -/
def onHeadlessSelect (w : World) (evt : Option (Anno × Nat)) : World :=
  match evt with
  | some (selection, element) =>
      let w1 := { w with st := { w.st with selectedAnno := none, selectedDOMElement := none } }
      let w2 := { w1 with st := { w1.st with selectedAnno := some selection, selectedDOMElement := some element } }
      if !selection.isSelection then
        let w3 := w2.emit (.annoSelected (selection.cloneWith w2.fresh) element)
        { w3 with fresh := w2.fresh + 1 }
      else
        let undrafted := (selection.undraftClone w2.fresh).toAnno
        let w3 := { w2 with fresh := w2.fresh + 1 }
        onCreateOrUpdateAnno w3 true undrafted none
  | none => clearState w

/-- `handleSelect`: dispatch on headless mode. -/
def handleSelect (w : World) (evt : Option (Anno × Nat)) : World :=
  if w.st.editorDisabled then onHeadlessSelect w evt else onNormalSelect w evt

/-- Shared tail of `overrideAnnotationId`: swap the id in the Highlight Engine,
then (after the visual update, via requestAnimationFrame) propagate the swap to
the Relation Layer's dependent endpoint references. -/
def overrideAnnoIdSwap (w : World) (originalAnno : Anno) (forcedId : String) : World :=
  let pair := w.highlighter.overrideId originalAnno.id forcedId
  let w1 := { w with highlighter := pair.2 }
  let w2 := w1.logAct (.swapAnnoId originalAnno.id forcedId)
  let w3 := { w2 with relationsLayer := w2.relationsLayer.overrideTargetAnno originalAnno pair.1 }
  w3.logAct (.propagateToRelations originalAnno.id forcedId)

/-- `overrideAnnotationId(originalAnnotation)(forcedId)`: if either editor is
open, reset in-progress drawing and clear the selected annotation and relation
first, then swap the id and propagate to dependent relations; otherwise swap
and propagate directly. -/
def overrideAnnoId (w : World) (originalAnno : Anno) (forcedId : String) : World :=
  if w.st.selectedAnno.isSome || w.st.selectedRelation.isSome then
    let w1 := { w with relationsLayer := w.relationsLayer.resetDrawing }
    let w2 := w1.logAct .resetDrawingAct
    let w3 := { w2 with st := { w2.st with selectedAnno := none, selectedRelation := none } }
    let w4 := w3.logAct .clearEditorsAct
    overrideAnnoIdSwap w4 originalAnno forcedId
  else
    overrideAnnoIdSwap w originalAnno forcedId

/-- `overrideRelationId(originalId)(forcedId)`: close the relation editor if it
is open, then swap the relation's id in the Relation Layer. -/
def overrideRelId (w : World) (originalId forcedId : String) : World :=
  if w.st.selectedRelation.isSome then
    let w1 := { w with st := { w.st with selectedRelation := none } }
    { w1 with relationsLayer := w1.relationsLayer.overrideRelationId originalId forcedId }
  else
    { w with relationsLayer := w.relationsLayer.overrideRelationId originalId forcedId }

/-- `onDeleteAnnotation`: destroy every relation whose endpoint set includes
the annotation's id, clear state, clear the pending raw selection, remove the
annotation from the Highlight Engine, then notify the host (payload passed
through as-is). -/
def onDeleteAnno (w : World) (a : Anno) : World :=
  let pair := w.relationsLayer.destroyConnectionsFor a
  let w1 := { w with relationsLayer := pair.1,
                     log := w.log ++ pair.2.map (fun r => Act.relationDestroyed r.id) }
  let w2 := clearState w1
  let w3 := w2.logAct .clearEditorsAct
  let w4 := { w3 with pendingSelection := false }
  let w5 := w4.logAct .clearRawSelection
  let w6 := { w5 with highlighter := w5.highlighter.removeAnno a }
  let w7 := w6.logAct (.removeFromHighlighter a.id)
  let w8 := w7.emit (.annoDeleted a)
  w8.logAct (.notifyDeleted a.id)

/-- `closeRelationsEditor`: close the relation editor and reset drawing. -/
def closeRelationsEditor (w : World) : World :=
  let w1 := { w with st := { w.st with selectedRelation := none } }
  { w1 with relationsLayer := w1.relationsLayer.resetDrawing }

/-- `onEditRelation`: open the relation editor on the given relation. -/
def onEditRelation (w : World) (r : Relation) : World :=
  { w with st := { w.st with selectedRelation := some r } }

/-- `onCreateOrUpdateRelation(relation, previous)`: write the relation into the
Relation Layer (add-or-replace), close the relation editor, then fire created
(with a clone of the relation's wrapped annotation and the curried relation-id
override) when the previous wrapped annotation had zero bodies, else fire
updated with clones of the new and previous wrapped annotations. -/
def onCreateOrUpdateRelation (w : World) (relation previous : Relation) : World :=
  let w1 := { w with relationsLayer := w.relationsLayer.addOrUpdateRelation relation (some previous) }
  let w2 := closeRelationsEditor w1
  if previous.anno.bodies.length = 0 then
    let w3 := w2.emit (.annoCreated (relation.anno.cloneWith w2.fresh) (.overrideFn relation.anno.id))
    { w3 with fresh := w2.fresh + 1 }
  else
    let w3 := w2.emit (.annoUpdated (relation.anno.cloneWith w2.fresh)
                        (some (previous.anno.cloneWith (w2.fresh + 1))))
    { w3 with fresh := w2.fresh + 2 }

/-- `onDeleteRelation`: remove the relation from the Relation Layer, close the
editor, notify the host with the relation's wrapped annotation (as-is). -/
def onDeleteRelation (w : World) (relation : Relation) : World :=
  let w1 := { w with relationsLayer := w.relationsLayer.removeRelation relation }
  let w2 := closeRelationsEditor w1
  w2.emit (.annoDeleted relation.anno)

/-- External API `addAnnotation`: inject a clone without opening an editor. -/
def addAnno (w : World) (a : Anno) : World :=
  let w1 := { w with highlighter := w.highlighter.addOrUpdateAnno (a.cloneWith w.fresh) none }
  { w1 with fresh := w.fresh + 1 }

/-- External API `disableSelect` setter: toggle the CSS affordance class and
the Selection Detector's enabled flag. -/
def setDisableSelect (w : World) (disable : Bool) : World :=
  { w with noselectClass := disable, selEnabled := !disable }

/-- External API `removeAnnotation`: remove from the Highlight Engine; if the
editor is currently open on this annotation, close it. -/
def removeAnnoApi (w : World) (a : Anno) : World :=
  let w1 := { w with highlighter := w.highlighter.removeAnno a }
  match w1.st.selectedAnno with
  | some s => if a.isEqual s then clearState w1 else w1
  | none => w1

/-- External API `selectAnnotation`: always deselect first; then, if an
argument is given and its spans are found, select the first span. -/
def selectAnnoApi (w : World) (arg : Option Anno) : World :=
  let w1 := { w with st := { w.st with selectedAnno := none, selectedDOMElement := none } }
  match arg with
  | some a =>
      match (w1.highlighter.findAnnoSpans a).head? with
      | some s => { w1 with st := { w1.st with selectedAnno := some s.anno, selectedDOMElement := some s.elem } }
      | none => w1
  | none => w1

/-- The RELATIONS mode name used by `setMode`. -/
def modeRelations : String := "RELATIONS"

/-- `setMode`: RELATIONS closes the annotation editor, disables selection,
marks the Relation Layer mutable and starts drawing; any other mode closes the
relation editor, re-enables selection, marks the layer read-only and stops
drawing. -/
def setMode (w : World) (mode : String) : World :=
  if mode = modeRelations then
    let w1 := clearState w
    let w2 := { w1 with selEnabled := false }
    { w2 with relationsLayer := { w2.relationsLayer with readOnly := false, drawing := true } }
  else
    let w1 := { w with st := { w.st with selectedRelation := none } }
    let w2 := { w1 with selEnabled := true }
    { w2 with relationsLayer := { w2.relationsLayer with readOnly := true, drawing := false } }

/-- The render guard: an editor popup is rendered exactly when a selection
exists and headless mode is off. -/
def renderOpen (w : World) : Bool :=
  (w.st.selectedAnno.isSome || w.st.selectedRelation.isSome) && !w.st.editorDisabled

/-- The controller's operations named by the state-exclusion claim (select,
edit-relation, create/update, delete, cancel, setMode, override), with the
environment guards under which each event can actually fire: select events
require the Selection Detector enabled, relation-layer events require drawing
mode, editor outcome events require the corresponding editor to be open and
headless mode off, Escape and the external override/setMode calls fire at any
time. -/
inductive StepC1 : World → World → Prop where
  | selectEvt (w : World) (evt : Option (Anno × Nat)) (hEn : w.selEnabled = true) :
      StepC1 w (handleSelect w evt)
  | escapeKey (w : World) : StepC1 w (handleEscape 27 w)
  | editRel (w : World) (r : Relation) (hDraw : w.relationsLayer.drawing = true) :
      StepC1 w (onEditRelation w r)
  | cancelDrawing (w : World) : StepC1 w (closeRelationsEditor w)
  | annoWrite (w : World) (c : Bool) (a : Anno) (p : Option Anno)
      (hOpen : w.st.selectedAnno.isSome = true) (hEd : w.st.editorDisabled = false) :
      StepC1 w (onCreateOrUpdateAnno w c a p)
  | annoDelete (w : World) (a : Anno) (hOpen : w.st.selectedAnno.isSome = true)
      (hEd : w.st.editorDisabled = false) : StepC1 w (onDeleteAnno w a)
  | annoCancel (w : World) (a : Option Anno) (hOpen : w.st.selectedAnno.isSome = true)
      (hEd : w.st.editorDisabled = false) : StepC1 w (onCancelAnno w a)
  | relWrite (w : World) (r p : Relation) (hOpen : w.st.selectedRelation.isSome = true)
      (hEd : w.st.editorDisabled = false) : StepC1 w (onCreateOrUpdateRelation w r p)
  | relDelete (w : World) (r : Relation) (hOpen : w.st.selectedRelation.isSome = true)
      (hEd : w.st.editorDisabled = false) : StepC1 w (onDeleteRelation w r)
  | modeSet (w : World) (m : String) : StepC1 w (setMode w m)
  | overrideAnnoStep (w : World) (a : Anno) (fid : String) : StepC1 w (overrideAnnoId w a fid)
  | overrideRelStep (w : World) (i fid : String) : StepC1 w (overrideRelId w i fid)

/-- `StepC1` further restricted: no select event is delivered while the
relation editor is open, and no edit-relation event is delivered while an
annotation editor is open. -/
inductive StepC1R : World → World → Prop where
  | selectEvt (w : World) (evt : Option (Anno × Nat)) (hEn : w.selEnabled = true)
      (hNoRel : w.st.selectedRelation = none) : StepC1R w (handleSelect w evt)
  | escapeKey (w : World) : StepC1R w (handleEscape 27 w)
  | editRel (w : World) (r : Relation) (hDraw : w.relationsLayer.drawing = true)
      (hNoAnn : w.st.selectedAnno = none) : StepC1R w (onEditRelation w r)
  | cancelDrawing (w : World) : StepC1R w (closeRelationsEditor w)
  | annoWrite (w : World) (c : Bool) (a : Anno) (p : Option Anno)
      (hOpen : w.st.selectedAnno.isSome = true) (hEd : w.st.editorDisabled = false) :
      StepC1R w (onCreateOrUpdateAnno w c a p)
  | annoDelete (w : World) (a : Anno) (hOpen : w.st.selectedAnno.isSome = true)
      (hEd : w.st.editorDisabled = false) : StepC1R w (onDeleteAnno w a)
  | annoCancel (w : World) (a : Option Anno) (hOpen : w.st.selectedAnno.isSome = true)
      (hEd : w.st.editorDisabled = false) : StepC1R w (onCancelAnno w a)
  | relWrite (w : World) (r p : Relation) (hOpen : w.st.selectedRelation.isSome = true)
      (hEd : w.st.editorDisabled = false) : StepC1R w (onCreateOrUpdateRelation w r p)
  | relDelete (w : World) (r : Relation) (hOpen : w.st.selectedRelation.isSome = true)
      (hEd : w.st.editorDisabled = false) : StepC1R w (onDeleteRelation w r)
  | modeSet (w : World) (m : String) : StepC1R w (setMode w m)
  | overrideAnnoStep (w : World) (a : Anno) (fid : String) : StepC1R w (overrideAnnoId w a fid)
  | overrideRelStep (w : World) (i fid : String) : StepC1R w (overrideRelId w i fid)

/-- The operations named by the DOM-element pairing claim (normal/headless
select, create/update, delete, cancel, selectAnnotation, overrideAnnotationId),
with the same environment guards. -/
inductive StepC3 : World → World → Prop where
  | selectEvt (w : World) (evt : Option (Anno × Nat)) (hEn : w.selEnabled = true) :
      StepC3 w (handleSelect w evt)
  | escapeKey (w : World) : StepC3 w (handleEscape 27 w)
  | annoWrite (w : World) (c : Bool) (a : Anno) (p : Option Anno)
      (hOpen : w.st.selectedAnno.isSome = true) (hEd : w.st.editorDisabled = false) :
      StepC3 w (onCreateOrUpdateAnno w c a p)
  | annoDelete (w : World) (a : Anno) (hOpen : w.st.selectedAnno.isSome = true)
      (hEd : w.st.editorDisabled = false) : StepC3 w (onDeleteAnno w a)
  | annoCancel (w : World) (a : Option Anno) (hOpen : w.st.selectedAnno.isSome = true)
      (hEd : w.st.editorDisabled = false) : StepC3 w (onCancelAnno w a)
  | selectApi (w : World) (arg : Option Anno) : StepC3 w (selectAnnoApi w arg)
  | overrideAnnoStep (w : World) (a : Anno) (fid : String) : StepC3 w (overrideAnnoId w a fid)

/-- `StepC3` with the id override restricted to states where no editor is
open (the code's else branch, which touches no controller state). -/
inductive StepC3R : World → World → Prop where
  | selectEvt (w : World) (evt : Option (Anno × Nat)) (hEn : w.selEnabled = true) :
      StepC3R w (handleSelect w evt)
  | escapeKey (w : World) : StepC3R w (handleEscape 27 w)
  | annoWrite (w : World) (c : Bool) (a : Anno) (p : Option Anno)
      (hOpen : w.st.selectedAnno.isSome = true) (hEd : w.st.editorDisabled = false) :
      StepC3R w (onCreateOrUpdateAnno w c a p)
  | annoDelete (w : World) (a : Anno) (hOpen : w.st.selectedAnno.isSome = true)
      (hEd : w.st.editorDisabled = false) : StepC3R w (onDeleteAnno w a)
  | annoCancel (w : World) (a : Option Anno) (hOpen : w.st.selectedAnno.isSome = true)
      (hEd : w.st.editorDisabled = false) : StepC3R w (onCancelAnno w a)
  | selectApi (w : World) (arg : Option Anno) : StepC3R w (selectAnnoApi w arg)
  | overrideAnnoStep (w : World) (a : Anno) (fid : String)
      (hA : w.st.selectedAnno = none) (hR : w.st.selectedRelation = none) :
      StepC3R w (overrideAnnoId w a fid)

/-- Worlds reachable from some freshly mounted controller through steps of `S`. -/
inductive Reach (S : World → World → Prop) : World → Prop where
  | start (cfg : Config) : Reach S (initWorld cfg)
  | more (w w' : World) : Reach S w → S w w' → Reach S w'

/-- The mutual-exclusion invariant: the two editors are never both open. -/
def InvC1 (w : World) : Prop :=
  (w.st.selectedAnno.isSome && w.st.selectedRelation.isSome) = false

/-- The pairing invariant: a selected DOM element exists exactly when a
selected annotation does. -/
def InvC3 (w : World) : Prop :=
  w.st.selectedDOMElement.isSome = w.st.selectedAnno.isSome

/-- The endpoint rewrite the id override must apply to every stored relation. -/
def rewriteEndpoints (oldId newId : String) (r : Relation) : Relation :=
  { r with startId := if r.startId == oldId then newId else r.startId,
           endId := if r.endId == oldId then newId else r.endId }

/-- The id-override contract: when an editor is open, drawing is reset and the
selected annotation/relation are cleared strictly before the id swap, and the
swap strictly precedes the propagation; in every case each endpoint reference
equal to the old id is rewritten to the forced id and no relation still
references the old id. -/
def c2Prop (w : World) (a : Anno) (fid : String) : Prop :=
  ((w.st.selectedAnno.isSome || w.st.selectedRelation.isSome) = true →
    (overrideAnnoId w a fid).log =
      w.log ++ [Act.resetDrawingAct, Act.clearEditorsAct, Act.swapAnnoId a.id fid,
                Act.propagateToRelations a.id fid]
    ∧ (overrideAnnoId w a fid).relationsLayer.inProgress = false
    ∧ (overrideAnnoId w a fid).st.selectedAnno = none
    ∧ (overrideAnnoId w a fid).st.selectedRelation = none)
  ∧ ((w.st.selectedAnno.isSome || w.st.selectedRelation.isSome) = false →
    (overrideAnnoId w a fid).log =
      w.log ++ [Act.swapAnnoId a.id fid, Act.propagateToRelations a.id fid])
  ∧ (∀ i : Nat, (overrideAnnoId w a fid).relationsLayer.relations[i]? =
      (w.relationsLayer.relations[i]?).map (rewriteEndpoints a.id fid))
  ∧ (∀ r ∈ (overrideAnnoId w a fid).relationsLayer.relations, r.refsId a.id = false)

/-- The relation-confirm contract: create fires exactly when the previous
wrapped annotation had zero bodies (with a clone and the curried id override),
update fires otherwise (with clones of new and previous), and in both cases the
relation is written add-or-replace, the editor closes and drawing resets. -/
def c5Prop (w : World) (r p : Relation) : Prop :=
  (p.anno.bodies.length = 0 →
    (onCreateOrUpdateRelation w r p).events =
      w.events ++ [HostEvent.annoCreated (r.anno.cloneWith w.fresh) (CreatedArg.overrideFn r.anno.id)])
  ∧ (¬ p.anno.bodies.length = 0 →
    (onCreateOrUpdateRelation w r p).events =
      w.events ++ [HostEvent.annoUpdated (r.anno.cloneWith w.fresh)
                    (some (p.anno.cloneWith (w.fresh + 1)))])
  ∧ r ∈ (onCreateOrUpdateRelation w r p).relationsLayer.relations
  ∧ (onCreateOrUpdateRelation w r p).st.selectedRelation = none
  ∧ (onCreateOrUpdateRelation w r p).relationsLayer.inProgress = false

/-- The headless create contract as the code actually behaves: exactly one
created event with draft markers stripped, no popup rendered, and the
controller selection state set to the created clone and its span. -/
def c7Prop (w : World) (sel : Anno) (el : Nat) : Prop :=
  (handleSelect w (some (sel, el))).events =
    w.events ++ [HostEvent.annoCreated (((sel.undraftClone w.fresh).toAnno).cloneWith (w.fresh + 1))
                  CreatedArg.noArg]
  ∧ (∀ b ∈ (((sel.undraftClone w.fresh).toAnno).cloneWith (w.fresh + 1)).bodies, b.draft = none)
  ∧ (handleSelect w (some (sel, el))).st.selectedAnno =
      some (((sel.undraftClone w.fresh).toAnno).cloneWith (w.fresh + 1))
  ∧ ((handleSelect w (some (sel, el))).st.selectedDOMElement).isSome = true
  ∧ renderOpen (handleSelect w (some (sel, el))) = false

/-- The create/update aliasing fact: the object handed to the host is the very
object written into the Highlight Engine and selected in controller state. -/
def c8AliasProp (w : World) (c : Bool) (a : Anno) : Prop :=
  (onCreateOrUpdateAnno w c a none).st.selectedAnno = some (a.cloneWith w.fresh)
  ∧ (a.cloneWith w.fresh) ∈ (onCreateOrUpdateAnno w c a none).highlighter.spans.map (fun s => s.anno)
  ∧ (onCreateOrUpdateAnno w c a none).events =
      w.events ++ [if c then HostEvent.annoCreated (a.cloneWith w.fresh) CreatedArg.noArg
                   else HostEvent.annoUpdated (a.cloneWith w.fresh) none]

/-- The payload discipline as the code actually behaves: selected and
relation-confirm payloads are fresh clones, create/update aliases the stored
object, delete and cancel pass their arguments through un-cloned. -/
def c8Prop (w : World) (sel : Anno) (el : Nat) (c : Bool) (a : Anno) (x : Option Anno)
    (d : Anno) (r p : Relation) : Prop :=
  (onNormalSelect w (some (sel, el))).events =
    w.events ++ [HostEvent.annoSelected (sel.cloneWith w.fresh) el]
  ∧ c8AliasProp w c a
  ∧ (onDeleteAnno w d).events = w.events ++ [HostEvent.annoDeleted d]
  ∧ (onCancelAnno w x).events = w.events ++ [HostEvent.cancelSelected x]
  ∧ (p.anno.bodies.length = 0 →
      (onCreateOrUpdateRelation w r p).events =
        w.events ++ [HostEvent.annoCreated (r.anno.cloneWith w.fresh)
                      (CreatedArg.overrideFn r.anno.id)])

/-- Delete on a missing target as the code actually behaves: both engines are
untouched and the host is notified exactly once, while controller selection
state is cleared, the pending selection dropped and the Selection Detector
re-enabled — as on any delete. -/
def c9Prop (w : World) (a : Anno) : Prop :=
  (onDeleteAnno w a).highlighter = w.highlighter
  ∧ (onDeleteAnno w a).relationsLayer.relations = w.relationsLayer.relations
  ∧ (onDeleteAnno w a).events = w.events ++ [HostEvent.annoDeleted a]
  ∧ (onDeleteAnno w a).st.selectedAnno = none
  ∧ (onDeleteAnno w a).st.selectedDOMElement = none
  ∧ (onDeleteAnno w a).selEnabled = true
  ∧ (onDeleteAnno w a).pendingSelection = false

/-- Every state-clearing path and the non-RELATIONS branch of setMode leave the
Selection Detector enabled, whatever its prior value. -/
def c10Prop (w : World) (a : Anno) (x : Option Anno) (s : Anno) (m : String) : Prop :=
  (clearState w).selEnabled = true
  ∧ (handleSelect w none).selEnabled = true
  ∧ (onDeleteAnno w a).selEnabled = true
  ∧ (onCancelAnno w x).selEnabled = true
  ∧ (handleEscape 27 w).selEnabled = true
  ∧ (w.st.selectedAnno = some s → a.isEqual s = true → (removeAnnoApi w a).selEnabled = true)
  ∧ (¬ m = modeRelations → (setMode w m).selEnabled = true)

/-- Configuration with the editor enabled (normal mode). -/
def cfgN : Config := { readOnly := false, widgets := [], disableEditor := false }

/-- Configuration with the editor disabled (headless mode). -/
def cfgH : Config := { readOnly := false, widgets := [], disableEditor := true }

/-- The NORMAL mode name. -/
def modeNormalStr : String := "NORMAL"

/-- A fresh draft selection carried by a select event. -/
def annC1 : Anno := { ref := 100, id := "a1", bodies := [], isSelection := true, readOnly := false }

/-- A relation delivered by the relation layer's createRelation event. -/
def relC1 : Relation :=
  { ref := 200, id := "r1",
    anno := { ref := 201, id := "r1", bodies := [], isSelection := false, readOnly := false },
    startId := "a1", endId := "a2" }

/-- Trace for the exclusion counterexample: enter RELATIONS mode, press
Escape (which re-enables selection), deliver a selection, then deliver an
edit-relation event from the still-drawing relation layer. -/
def wC1a : World := setMode (initWorld cfgN) modeRelations

def wC1b : World := handleEscape 27 wC1a

def wC1c : World := handleSelect wC1b (some (annC1, 5))

def wC1d : World := onEditRelation wC1c relC1

/-- A world with the relation editor open, reached under the restricted steps. -/
def wC1w : World := onEditRelation (setMode (initWorld cfgN) modeRelations) relC1

/-- An existing annotation carried by a select event. -/
def annB : Anno := { ref := 110, id := "b1", bodies := [], isSelection := false, readOnly := false }

def forcedIdC3 : String := "forced-9"

/-- Trace for the pairing counterexample: select an existing annotation, then
run the id override while the annotation editor is open. -/
def wC3a : World := handleSelect (initWorld cfgN) (some (annB, 7))

def wC3b : World := overrideAnnoId wC3a annB forcedIdC3

/-- An annotation stored in the Highlight Engine under a local id. -/
def annL : Anno := { ref := 80, id := "local-1", bodies := [], isSelection := false, readOnly := false }

/-- A relation whose endpoint set includes the local id. -/
def relL : Relation :=
  { ref := 81, id := "rel-1",
    anno := { ref := 82, id := "rel-1", bodies := [], isSelection := false, readOnly := false },
    startId := "local-1", endId := "other-2" }

def srvId : String := "srv-9"

/-- A world holding `annL` in the Highlight Engine and `relL` in the Relation
Layer (the spec's reconciliation scenario). -/
def wC2 : World :=
  { initWorld cfgN with
    highlighter := { spans := [{ elem := 0, anno := annL }], nextElem := 1 },
    relationsLayer := { relations := [relL], drawing := false, inProgress := false, readOnly := true } }

/-- A relation and an empty-bodied previous relation for the confirm path. -/
def relNew : Relation :=
  { ref := 90, id := "rel-n",
    anno := { ref := 91, id := "rel-n",
              bodies := [{ value := "linked", draft := none }], isSelection := false, readOnly := false },
    startId := "b1", endId := "b2" }

def relPrevEmpty : Relation :=
  { ref := 92, id := "rel-n",
    anno := { ref := 93, id := "rel-n", bodies := [], isSelection := false, readOnly := false },
    startId := "b1", endId := "b2" }

/-- A world for the escape counterexample: host disabled selection, no editor
open, no events yet. -/
def wC6 : World := setDisableSelect (initWorld cfgN) true

/-- A fresh draft selection with one body carrying a draft marker. -/
def draftSel : Anno :=
  { ref := 50, id := "sel-1", bodies := [{ value := "v", draft := some true }],
    isSelection := true, readOnly := false }

/-- The headless-mode world after the draft selection arrives. -/
def wC7 : World := handleSelect (initWorld cfgH) (some (draftSel, 9))

/-- An annotation confirmed through the editor. -/
def annX : Anno := { ref := 60, id := "x1", bodies := [], isSelection := false, readOnly := false }

/-- Open the editor on `annX`, then confirm it through the create path. -/
def wC8a : World := handleSelect (initWorld cfgN) (some (annX, 3))

def wC8b : World := onCreateOrUpdateAnno wC8a true annX none

/-- An annotation selected but never written to the Highlight Engine. -/
def annB9 : Anno := { ref := 70, id := "b9", bodies := [], isSelection := false, readOnly := false }

/-- Select `annB9` (the engine stays empty), then delete it. -/
def wC9a : World := handleSelect (initWorld cfgN) (some (annB9, 4))

def wC9b : World := onDeleteAnno wC9a annB9

/-- A world where the host has disabled selection. -/
def wC10 : World := setDisableSelect (initWorld cfgN) true

/-- The annotation just written is among the Highlight Engine's stored
annotations (add-or-replace always leaves the written object in the store). -/
theorem mem_addOrUpdateAnno (hl : Highlighter) (a : Anno) (prev : Option Anno) :
    a ∈ (hl.addOrUpdateAnno a prev).spans.map (fun s => s.anno) := by
  unfold Highlighter.addOrUpdateAnno
  split
  case isTrue h =>
    rw [List.any_eq_true] at h
    obtain ⟨s, hs, hp⟩ := h
    exact List.mem_map.mpr ⟨{ s with anno := a }, List.mem_map.mpr ⟨s, hs, by simp [hp]⟩, rfl⟩
  case isFalse h =>
    simp

/-- After add-or-replace, looking up the written annotation's spans finds one. -/
theorem head_findAnnoSpans_addOrUpdate (hl : Highlighter) (a : Anno) (prev : Option Anno) :
    (((hl.addOrUpdateAnno a prev).findAnnoSpans a).head?).isSome = true := by
  have hmem := mem_addOrUpdateAnno hl a prev
  rw [List.mem_map] at hmem
  obtain ⟨s, hs, hsa⟩ := hmem
  have hf : s ∈ (hl.addOrUpdateAnno a prev).findAnnoSpans a := by
    unfold Highlighter.findAnnoSpans
    exact List.mem_filter.mpr ⟨hs, by simp [hsa]⟩
  have hne := List.ne_nil_of_mem hf
  cases hh : ((hl.addOrUpdateAnno a prev).findAnnoSpans a).head? with
  | none => exact absurd (List.head?_eq_none_iff.mp hh) hne
  | some s0 => rfl

/-- The relation just written is among the Relation Layer's stored relations. -/
theorem mem_addOrUpdateRelation (rl : RelationsLayer) (r : Relation) (prev : Option Relation) :
    r ∈ (rl.addOrUpdateRelation r prev).relations := by
  unfold RelationsLayer.addOrUpdateRelation
  split
  case isTrue h =>
    rw [List.any_eq_true] at h
    obtain ⟨x, hx, hp⟩ := h
    exact List.mem_map.mpr ⟨x, hx, by simp [hp]⟩
  case isFalse h =>
    simp

/-- The create/update path selects exactly the clone it wrote. -/
theorem onCreateOrUpdateAnno_selectedAnno (w : World) (c : Bool) (a : Anno) (p : Option Anno) :
    (onCreateOrUpdateAnno w c a p).st.selectedAnno = some (a.cloneWith w.fresh) :=
  rfl

/-- The create/update path never touches the selected relation. -/
theorem onCreateOrUpdateAnno_selectedRelation (w : World) (c : Bool) (a : Anno) (p : Option Anno) :
    (onCreateOrUpdateAnno w c a p).st.selectedRelation = w.st.selectedRelation :=
  rfl

/-- The create/update path always finds a span for the written annotation. -/
theorem onCreateOrUpdateAnno_dom_isSome (w : World) (c : Bool) (a : Anno) (p : Option Anno) :
    ((onCreateOrUpdateAnno w c a p).st.selectedDOMElement).isSome = true := by
  have h := head_findAnnoSpans_addOrUpdate w.highlighter (a.cloneWith w.fresh) p
  show ((((w.highlighter.addOrUpdateAnno (a.cloneWith w.fresh) p).findAnnoSpans
      (a.cloneWith w.fresh)).head?).map (fun s => s.elem)).isSome = true
  cases hh : ((w.highlighter.addOrUpdateAnno (a.cloneWith w.fresh) p).findAnnoSpans
      (a.cloneWith w.fresh)).head? with
  | none => rw [hh] at h; exact absurd h (by simp)
  | some s => rfl

/-- The normal select path never touches the selected relation. -/
theorem onNormalSelect_selectedRelation (w : World) (evt : Option (Anno × Nat)) :
    (onNormalSelect w evt).st.selectedRelation = w.st.selectedRelation := by
  cases evt with
  | none => rfl
  | some pr =>
      obtain ⟨sel, el⟩ := pr
      cases hs : sel.isSelection <;> simp [onNormalSelect, hs, World.emit]

/-- The headless select path never touches the selected relation. -/
theorem onHeadlessSelect_selectedRelation (w : World) (evt : Option (Anno × Nat)) :
    (onHeadlessSelect w evt).st.selectedRelation = w.st.selectedRelation := by
  cases evt with
  | none => rfl
  | some pr =>
      obtain ⟨sel, el⟩ := pr
      cases hs : sel.isSelection <;>
        simp [onHeadlessSelect, hs, World.emit, onCreateOrUpdateAnno_selectedRelation]

/-- The select paths never touch the selected relation. -/
theorem handleSelect_selectedRelation (w : World) (evt : Option (Anno × Nat)) :
    (handleSelect w evt).st.selectedRelation = w.st.selectedRelation := by
  by_cases hd : w.st.editorDisabled = true <;>
    simp [handleSelect, hd, onNormalSelect_selectedRelation, onHeadlessSelect_selectedRelation]

/-- Cancel always clears the selected annotation. -/
theorem onCancelAnno_selectedAnno (w : World) (a : Option Anno) :
    (onCancelAnno w a).st.selectedAnno = none :=
  rfl

/-- Delete always clears the selected annotation. -/
theorem onDeleteAnno_selectedAnno (w : World) (a : Anno) :
    (onDeleteAnno w a).st.selectedAnno = none :=
  rfl

/-- Closing the relation editor clears the selected relation. -/
theorem closeRelationsEditor_selectedRelation (w : World) :
    (closeRelationsEditor w).st.selectedRelation = none :=
  rfl

/-- The relation confirm path ends with the relation editor closed. -/
theorem onCreateOrUpdateRelation_selectedRelation (w : World) (r p : Relation) :
    (onCreateOrUpdateRelation w r p).st.selectedRelation = none := by
  unfold onCreateOrUpdateRelation
  split <;> rfl

/-- The relation delete path ends with the relation editor closed. -/
theorem onDeleteRelation_selectedRelation (w : World) (r : Relation) :
    (onDeleteRelation w r).st.selectedRelation = none :=
  rfl

/-- The swap-and-propagate tail touches no controller state. -/
theorem overrideAnnoIdSwap_st (w : World) (a : Anno) (fid : String) :
    (overrideAnnoIdSwap w a fid).st = w.st :=
  rfl


/-- C1 (amended): along every run of the controller's operations (select,
edit-relation, create/update, delete, cancel, setMode, override) in which no
select event is delivered while the relation editor is open and no
edit-relation event is delivered while an annotation editor is open,
`selectedAnno` and `selectedRelation` are never both non-null. -/
theorem c1_editor_exclusion_amended (w0 : World) (h : Reach StepC1R w0) : InvC1 w0 := by
  induction h with
  | start cfg => simp [InvC1, initWorld]
  | more w w' hr hs ih =>
      cases hs with
      | selectEvt evt hEn hNoRel =>
          unfold InvC1
          rw [handleSelect_selectedRelation, hNoRel]
          simp
      | escapeKey =>
          simp [InvC1, handleEscape, onCancelAnno, clearState, World.emit]
      | editRel r hDraw hNoAnn =>
          simp [InvC1, onEditRelation, hNoAnn]
      | cancelDrawing =>
          simp [InvC1, closeRelationsEditor, RelationsLayer.resetDrawing]
      | annoWrite c a p hOpen hEd =>
          have hrel : w.st.selectedRelation.isSome = false := by
            unfold InvC1 at ih
            rw [hOpen] at ih
            simpa using ih
          unfold InvC1
          rw [onCreateOrUpdateAnno_selectedRelation, hrel]
          simp
      | annoDelete a hOpen hEd =>
          simp [InvC1, onDeleteAnno_selectedAnno]
      | annoCancel a hOpen hEd =>
          simp [InvC1, onCancelAnno_selectedAnno]
      | relWrite r p hOpen hEd =>
          simp [InvC1, onCreateOrUpdateRelation_selectedRelation]
      | relDelete r hOpen hEd =>
          simp [InvC1, onDeleteRelation_selectedRelation]
      | modeSet m =>
          by_cases hm : m = modeRelations
          · simp [InvC1, setMode, hm, clearState]
          · simp [InvC1, setMode, hm]
      | overrideAnnoStep a fid =>
          unfold InvC1 overrideAnnoId
          by_cases hc : (w.st.selectedAnno.isSome || w.st.selectedRelation.isSome) = true
          · rw [if_pos hc]
            rw [overrideAnnoIdSwap_st]
            rfl
          · rw [if_neg hc]
            rw [overrideAnnoIdSwap_st]
            exact ih
      | overrideRelStep i fid =>
          unfold InvC1 overrideRelId
          by_cases hre : w.st.selectedRelation.isSome = true
          · rw [if_pos hre]
            simp
          · rw [if_neg hre]
            exact ih

/-- C1 (counterexample): a run using only the claim's own operations —
setMode RELATIONS, Escape, a select event (legal: the Escape path re-enabled
the Selection Detector), then an edit-relation event from the still-drawing
relation layer — reaches a state with both an annotation and a relation
selected, so the claimed invariant fails on the code. -/
theorem c1_editor_exclusion_cex :
    Reach StepC1 wC1d
    ∧ wC1d.st.selectedAnno.isSome = true
    ∧ wC1d.st.selectedRelation.isSome = true := by
  refine ⟨?_, by decide, by decide⟩
  have h0 : Reach StepC1 (initWorld cfgN) := Reach.start cfgN
  have h1 : Reach StepC1 wC1a := Reach.more _ _ h0 (StepC1.modeSet _ modeRelations)
  have h2 : Reach StepC1 wC1b := Reach.more _ _ h1 (StepC1.escapeKey _)
  have h3 : Reach StepC1 wC1c :=
    Reach.more _ _ h2 (StepC1.selectEvt _ (some (annC1, 5)) (by decide))
  exact Reach.more _ _ h3 (StepC1.editRel _ relC1 (by decide))

/-- C1 (witness): the amended invariant applied to a concrete restricted run
that opens the relation editor after entering RELATIONS mode. -/
theorem c1_editor_exclusion_witness : InvC1 wC1w := by
  have h0 : Reach StepC1R (initWorld cfgN) := Reach.start cfgN
  have h1 : Reach StepC1R (setMode (initWorld cfgN) modeRelations) :=
    Reach.more _ _ h0 (StepC1R.modeSet _ modeRelations)
  exact c1_editor_exclusion_amended wC1w
    (Reach.more _ _ h1 (StepC1R.editRel _ relC1 (by decide) (by decide)))

/-- The create/update path re-establishes the DOM-element pairing. -/
theorem onCreateOrUpdateAnno_InvC3 (w : World) (c : Bool) (a : Anno) (p : Option Anno) :
    InvC3 (onCreateOrUpdateAnno w c a p) := by
  unfold InvC3
  rw [onCreateOrUpdateAnno_selectedAnno, onCreateOrUpdateAnno_dom_isSome]
  rfl


/-- Every headless select event re-establishes the DOM-element pairing. -/
theorem onHeadlessSelect_InvC3 (w : World) (evt : Option (Anno × Nat)) :
    InvC3 (onHeadlessSelect w evt) := by
  cases evt with
  | none => rfl
  | some pr =>
      obtain ⟨sel, el⟩ := pr
      simp only [onHeadlessSelect]
      split
      · simp [InvC3, World.emit]
      · exact onCreateOrUpdateAnno_InvC3 _ _ _ _

/-- Every normal select event re-establishes the DOM-element pairing. -/
theorem onNormalSelect_InvC3 (w : World) (evt : Option (Anno × Nat)) :
    InvC3 (onNormalSelect w evt) := by
  cases evt with
  | none => rfl
  | some pr =>
      obtain ⟨sel, el⟩ := pr
      simp only [onNormalSelect]
      split
      · simp [InvC3]
      · simp [InvC3, World.emit]

/-- Every select event re-establishes the DOM-element pairing. -/
theorem handleSelect_InvC3 (w : World) (evt : Option (Anno × Nat)) :
    InvC3 (handleSelect w evt) := by
  unfold handleSelect
  split
  · exact onHeadlessSelect_InvC3 w evt
  · exact onNormalSelect_InvC3 w evt

/-- C3 (amended): along every run of the claim's operations (normal/headless
select, create/update, delete, cancel, selectAnnotation, overrideAnnotationId)
in which the id override is only invoked while no editor is open,
`selectedDOMElement` is non-null exactly when `selectedAnno` is; the excluded
case is real — the override's editor-open branch clears `selectedAnno` but
leaves `selectedDOMElement` set. -/
theorem c3_dom_pairing_amended (w0 : World) (h : Reach StepC3R w0) : InvC3 w0 := by
  induction h with
  | start cfg => simp [InvC3, initWorld]
  | more w w' hr hs ih =>
      cases hs with
      | selectEvt evt hEn => exact handleSelect_InvC3 w evt
      | escapeKey => rfl
      | annoWrite c a p hOpen hEd => exact onCreateOrUpdateAnno_InvC3 _ _ _ _
      | annoDelete a hOpen hEd => rfl
      | annoCancel a hOpen hEd => rfl
      | selectApi arg =>
          cases arg with
          | none => rfl
          | some a =>
              cases hh : (w.highlighter.findAnnoSpans a).head? with
              | none => simp [InvC3, selectAnnoApi, hh]
              | some s => simp [InvC3, selectAnnoApi, hh]
      | overrideAnnoStep a fid hA hR =>
          unfold InvC3 overrideAnnoId
          rw [hA, hR]
          rw [if_neg (by simp)]
          rw [overrideAnnoIdSwap_st]
          exact ih

/-- C3 (counterexample): select an existing annotation (both fields set), then
invoke the id override while the editor is open — `selectedAnno` is cleared but
`selectedDOMElement` stays set, so the claimed biconditional fails on the code,
and the override operation (named by the claim as preserving it) is the one
that breaks it. -/
theorem c3_dom_pairing_cex :
    Reach StepC3 wC3b
    ∧ wC3b.st.selectedAnno = none
    ∧ wC3b.st.selectedDOMElement.isSome = true := by
  refine ⟨?_, by decide, by decide⟩
  have h0 : Reach StepC3 (initWorld cfgN) := Reach.start cfgN
  have h1 : Reach StepC3 wC3a :=
    Reach.more _ _ h0 (StepC3.selectEvt _ (some (annB, 7)) (by decide))
  exact Reach.more _ _ h1 (StepC3.overrideAnnoStep _ annB forcedIdC3)

/-- C3 (witness): the amended invariant applied to the concrete restricted run
that selects an existing annotation. -/
theorem c3_dom_pairing_witness : InvC3 wC3a :=
  c3_dom_pairing_amended wC3a
    (Reach.more _ _ (Reach.start cfgN) (StepC3R.selectEvt _ (some (annB, 7)) (by decide)))

/-- The swap-and-propagate tail logs the swap immediately before the
propagation, after anything already logged. -/
theorem overrideAnnoIdSwap_log (v : World) (a : Anno) (fid : String) :
    (overrideAnnoIdSwap v a fid).log =
      v.log ++ [Act.swapAnnoId a.id fid, Act.propagateToRelations a.id fid] := by
  unfold overrideAnnoIdSwap
  simp [World.logAct, List.append_assoc]

/-- The swap-and-propagate tail rewrites the Relation Layer through
`overrideTargetAnno` with the Highlight Engine's swap result. -/
theorem overrideAnnoIdSwap_relationsLayer (v : World) (a : Anno) (fid : String) :
    (overrideAnnoIdSwap v a fid).relationsLayer =
      v.relationsLayer.overrideTargetAnno a (v.highlighter.overrideId a.id fid).1 :=
  rfl

/-- C2: the id override resets drawing and clears the selected annotation and
relation strictly before the id swap whenever an editor is open, the swap
strictly precedes the dependent propagation in both branches, and afterwards
every endpoint reference that equalled the old id references the forced id,
with no relation left referencing the old id. -/
theorem c2_override_ordering (w : World) (a : Anno) (fid : String)
    (hIn : w.highlighter.containsId a.id = true) (hNe : ¬ fid = a.id) :
    c2Prop w a fid := by
  cases hf : w.highlighter.spans.find? (fun s => s.anno.id == a.id) with
  | none =>
      exfalso
      rw [List.find?_eq_none] at hf
      unfold Highlighter.containsId at hIn
      rw [List.any_eq_true] at hIn
      obtain ⟨s, hs, hp⟩ := hIn
      exact hf s hs hp
  | some s =>
      have hov : w.highlighter.overrideId a.id fid =
          (some { s.anno with id := fid },
           { spans := w.highlighter.spans.map (fun t =>
               if t.anno.id == a.id then { t with anno := { s.anno with id := fid } } else t),
             nextElem := w.highlighter.nextElem }) := by
        unfold Highlighter.overrideId
        rw [hf]
      have hLayer : ∀ rl : RelationsLayer,
          (rl.overrideTargetAnno a (w.highlighter.overrideId a.id fid).1).relations
            = rl.relations.map (rewriteEndpoints a.id fid) := by
        intro rl
        rw [hov]
        rfl
      have hInProg : ∀ rl : RelationsLayer,
          (rl.overrideTargetAnno a (w.highlighter.overrideId a.id fid).1).inProgress
            = rl.inProgress := by
        intro rl
        rw [hov]
        rfl
      have hmain : (overrideAnnoId w a fid).relationsLayer.relations
          = w.relationsLayer.relations.map (rewriteEndpoints a.id fid) := by
        unfold overrideAnnoId
        split
        · rw [overrideAnnoIdSwap_relationsLayer]
          exact hLayer _
        · rw [overrideAnnoIdSwap_relationsLayer]
          exact hLayer _
      refine ⟨?_, ?_, ?_, ?_⟩
      · intro hc
        unfold overrideAnnoId
        rw [if_pos hc]
        refine ⟨?_, ?_, rfl, rfl⟩
        · rw [overrideAnnoIdSwap_log]
          simp [World.logAct, List.append_assoc]
        · rw [overrideAnnoIdSwap_relationsLayer]
          exact hInProg _
      · intro hc2
        unfold overrideAnnoId
        rw [if_neg (by simp [hc2])]
        exact overrideAnnoIdSwap_log w a fid
      · intro i
        rw [hmain, List.getElem?_map]
      · intro r hr
        rw [hmain] at hr
        obtain ⟨r0, hr0, rfl⟩ := List.mem_map.mp hr
        unfold Relation.refsId rewriteEndpoints
        by_cases h1 : r0.startId = a.id <;> by_cases h2 : r0.endId = a.id <;>
          simp [h1, h2, hNe]

/-- C2 (witness): the spec's reconciliation scenario — annotation `local-1`
referenced by a relation, overridden to `srv-9` — with the resulting Relation
Layer contents computed concretely. -/
theorem c2_override_ordering_witness :
    c2Prop wC2 annL srvId
    ∧ (overrideAnnoId wC2 annL srvId).relationsLayer.relations
        = [{ relL with startId := srvId }] :=
  ⟨c2_override_ordering wC2 annL srvId (by decide) (by decide), by decide⟩

/-- C4: delete performs, in order, cascade destruction of every relation whose
endpoint set includes the annotation's id, controller-state clearing, pending
raw-selection clearing, removal from the Highlight Engine, and only then the
host notification — so cascaded relations are gone before the annotation is. -/
theorem c4_delete_cascade_order (w : World) (a : Anno) :
    (onDeleteAnno w a).log =
      w.log ++ ((w.relationsLayer.relations.filter (fun r => r.refsId a.id)).map
          (fun r => Act.relationDestroyed r.id)
        ++ [Act.clearEditorsAct, Act.clearRawSelection,
            Act.removeFromHighlighter a.id, Act.notifyDeleted a.id])
    ∧ (onDeleteAnno w a).relationsLayer.relations
        = w.relationsLayer.relations.filter (fun r => !(r.refsId a.id))
    ∧ (onDeleteAnno w a).highlighter.spans
        = w.highlighter.spans.filter (fun s => !(s.anno.id == a.id))
    ∧ (onDeleteAnno w a).events = w.events ++ [HostEvent.annoDeleted a]
    ∧ (onDeleteAnno w a).st.selectedAnno = none
    ∧ (onDeleteAnno w a).pendingSelection = false := by
  refine ⟨?_, rfl, rfl, rfl, rfl, rfl⟩
  unfold onDeleteAnno
  simp [World.logAct, World.emit, clearState, RelationsLayer.destroyConnectionsFor,
    List.append_assoc]

/-- C5: the relation confirm path distinguishes create from update by whether
the previous wrapped annotation had zero bodies, hands the host a clone (plus
the curried relation-id override on create), writes the relation add-or-replace
and closes the relation editor with drawing reset. -/
theorem c5_relation_confirm (w : World) (r p : Relation) : c5Prop w r p := by
  refine ⟨?_, ?_, ?_, onCreateOrUpdateRelation_selectedRelation w r p, ?_⟩
  · intro h0
    unfold onCreateOrUpdateRelation
    rw [if_pos h0]
    rfl
  · intro hne
    unfold onCreateOrUpdateRelation
    rw [if_neg hne]
    rfl
  · unfold onCreateOrUpdateRelation
    split
    · exact mem_addOrUpdateRelation _ _ _
    · exact mem_addOrUpdateRelation _ _ _
  · unfold onCreateOrUpdateRelation
    split <;> rfl

/-- C5 (witness): a confirm whose previous wrapped annotation has zero bodies,
at a concrete world. -/
theorem c5_relation_confirm_witness :
    relPrevEmpty.anno.bodies.length = 0
    ∧ c5Prop (initWorld cfgN) relNew relPrevEmpty :=
  ⟨by decide, c5_relation_confirm _ _ _⟩

/-- C6 (amended): Escape is literally the annotation cancel path invoked with
no annotation, and it runs unconditionally — clearing selection state and the
pending selection, re-enabling the Selection Detector and firing
onCancelSelected(null) even when no annotation editor is open; it never
touches an open relation editor. -/
theorem c6_escape_amended (w : World) :
    handleEscape 27 w = onCancelAnno w none
    ∧ (handleEscape 27 w).st.selectedRelation = w.st.selectedRelation
    ∧ (handleEscape 27 w).st.selectedAnno = none
    ∧ (handleEscape 27 w).st.selectedDOMElement = none
    ∧ (handleEscape 27 w).selEnabled = true
    ∧ (handleEscape 27 w).pendingSelection = false
    ∧ (handleEscape 27 w).events = w.events ++ [HostEvent.cancelSelected none] :=
  ⟨rfl, rfl, rfl, rfl, rfl, rfl, rfl⟩

/-- C6 (counterexample): with no annotation editor open and selection disabled
by the host, Escape still re-enables the Selection Detector and notifies the
host — refuting the claim that it then has no effect. -/
theorem c6_escape_cex :
    wC6.st.selectedAnno = none
    ∧ wC6.selEnabled = false
    ∧ wC6.events = []
    ∧ (handleEscape 27 wC6).selEnabled = true
    ∧ (handleEscape 27 wC6).events = [HostEvent.cancelSelected none]
    ∧ (handleEscape 27 wC6).st.selectedRelation = wC6.st.selectedRelation := by
  refine ⟨rfl, rfl, rfl, rfl, rfl, rfl⟩

/-- C7 (amended): in headless mode a fresh draft selection runs the create
path exactly once, firing created with all draft markers stripped, and no
popup is rendered — but `selectedAnno`/`selectedDOMElement` do not remain
null: they are set to the created clone and its span. -/
theorem c7_headless_create_amended (w : World) (sel : Anno) (el : Nat)
    (hHead : w.st.editorDisabled = true) (hSel : sel.isSelection = true) :
    c7Prop w sel el := by
  have heq : handleSelect w (some (sel, el))
      = onCreateOrUpdateAnno
          { w with st := { w.st with selectedAnno := some sel, selectedDOMElement := some el },
                   fresh := w.fresh + 1 }
          true ((sel.undraftClone w.fresh).toAnno) none := by
    unfold handleSelect
    rw [if_pos hHead]
    simp only [onHeadlessSelect]
    rw [hSel]
    rfl
  unfold c7Prop
  rw [heq]
  refine ⟨rfl, ?_, rfl, onCreateOrUpdateAnno_dom_isSome _ _ _ _, ?_⟩
  · intro b hb
    have hb2 : b ∈ sel.bodies.map (fun q => { q with draft := none }) := hb
    obtain ⟨b0, hb0, rfl⟩ := List.mem_map.mp hb2
    rfl
  · have hEd : (onCreateOrUpdateAnno
        { w with st := { w.st with selectedAnno := some sel, selectedDOMElement := some el },
                 fresh := w.fresh + 1 }
        true ((sel.undraftClone w.fresh).toAnno) none).st.editorDisabled = true := hHead
    simp [renderOpen, hEd]

/-- C7 (counterexample): the concrete headless run does fire created once with
the draft marker stripped, but `selectedAnno` and `selectedDOMElement` do not
remain null — refuting the claim's no-editor-state conjunct. -/
theorem c7_headless_create_cex :
    (initWorld cfgH).st.editorDisabled = true
    ∧ draftSel.isSelection = true
    ∧ wC7.events
        = [HostEvent.annoCreated
            { ref := 1, id := "sel-1", bodies := [{ value := "v", draft := none }],
              isSelection := false, readOnly := false } CreatedArg.noArg]
    ∧ ¬ (wC7.st.selectedAnno = none)
    ∧ ¬ (wC7.st.selectedDOMElement = none) := by
  refine ⟨rfl, rfl, by decide, by decide, by decide⟩

/-- C7 (witness): the amended statement at the concrete headless run. -/
theorem c7_headless_create_witness : c7Prop (initWorld cfgH) draftSel 9 :=
  c7_headless_create_amended (initWorld cfgH) draftSel 9 rfl rfl

/-- C8 (amended): selected-event and relation-confirm payloads are fresh
clones, but the annotation create/update path hands the host the very object
it stores and selects, and delete/cancel pass their arguments through
un-cloned. -/
theorem c8_payload_discipline_amended (w : World) (sel : Anno) (el : Nat) (c : Bool)
    (a : Anno) (x : Option Anno) (d : Anno) (r p : Relation)
    (hSel : sel.isSelection = false) :
    c8Prop w sel el c a x d r p := by
  refine ⟨?_, ⟨rfl, mem_addOrUpdateAnno _ _ _, rfl⟩, rfl, rfl, ?_⟩
  · simp only [onNormalSelect]
    rw [hSel]
    rfl
  · intro h0
    unfold onCreateOrUpdateRelation
    rw [if_pos h0]
    rfl

/-- C8 (counterexample): confirming `annX` through the create path emits to
the host exactly the object (same identity, ref 1) that is simultaneously
stored in the Highlight Engine and selected in controller state — the payload
is not a detached clone of internal state. -/
theorem c8_payload_discipline_cex :
    wC8b.events = wC8a.events ++ [HostEvent.annoCreated (annX.cloneWith 1) CreatedArg.noArg]
    ∧ wC8b.st.selectedAnno = some (annX.cloneWith 1)
    ∧ (annX.cloneWith 1) ∈ wC8b.highlighter.spans.map (fun s => s.anno) := by
  refine ⟨by decide, by decide, by decide⟩

/-- C8 (witness): the amended payload discipline at concrete inputs. -/
theorem c8_payload_discipline_witness :
    c8Prop (initWorld cfgN) annB 7 true annX none annB9 relNew relPrevEmpty :=
  c8_payload_discipline_amended (initWorld cfgN) annB 7 true annX none annB9 relNew
    relPrevEmpty rfl

/-- C9 (amended): deleting an annotation absent from the Highlight Engine
leaves both engines untouched and notifies the host exactly once, but — like
every delete — clears controller selection state, drops the pending selection
and re-enables the Selection Detector. -/
theorem c9_delete_missing_amended (w : World) (a : Anno)
    (h1 : w.highlighter.containsId a.id = false)
    (h2 : ∀ r ∈ w.relationsLayer.relations, r.refsId a.id = false) :
    c9Prop w a := by
  have hall : ∀ s ∈ w.highlighter.spans, (s.anno.id == a.id) = false := by
    intro s hs
    cases hb : (s.anno.id == a.id) with
    | false => rfl
    | true =>
        have hc : w.highlighter.containsId a.id = true :=
          List.any_eq_true.mpr ⟨s, hs, hb⟩
        rw [hc] at h1
        exact absurd h1 (by decide)
  refine ⟨?_, ?_, rfl, rfl, rfl, rfl, rfl⟩
  · show w.highlighter.removeAnno a = w.highlighter
    unfold Highlighter.removeAnno
    rw [List.filter_eq_self.mpr (by intro s hs; simp [hall s hs])]
  · show (w.relationsLayer.relations.filter fun r => !(r.refsId a.id))
        = w.relationsLayer.relations
    refine List.filter_eq_self.mpr ?_
    intro r hr
    simp [h2 r hr]

/-- C9 (counterexample): deleting `annB9`, absent from the Highlight Engine,
changes the controller's state (the selection is cleared) while still
notifying once — refuting the claim that the controller's state is left
unchanged. -/
theorem c9_delete_missing_cex :
    wC9a.highlighter.containsId annB9.id = false
    ∧ wC9a.st.selectedAnno = some annB9
    ∧ wC9b.st.selectedAnno = none
    ∧ ¬ (wC9b.st = wC9a.st)
    ∧ wC9b.events = wC9a.events ++ [HostEvent.annoDeleted annB9] := by
  refine ⟨by decide, by decide, by decide, by decide, by decide⟩

/-- C9 (witness): the amended statement at the concrete missing-target run. -/
theorem c9_delete_missing_witness : c9Prop wC9a annB9 :=
  c9_delete_missing_amended wC9a annB9 (by decide) (by decide)

/-- C10: every state-clearing path (null-selection select, delete, cancel,
Escape, removeAnnotation of the selected annotation) and the non-RELATIONS
branch of setMode unconditionally set the Selection Detector's enabled flag to
true, whatever its prior value. -/
theorem c10_select_reenabled (w : World) (a : Anno) (x : Option Anno) (s : Anno) (m : String) :
    c10Prop w a x s m := by
  refine ⟨rfl, ?_, rfl, rfl, rfl, ?_, ?_⟩
  · unfold handleSelect
    split
    · rfl
    · rfl
  · intro hsel hiseq
    simp [removeAnnoApi, hsel, hiseq, clearState]
  · intro hm
    unfold setMode
    rw [if_neg hm]

/-- C10 (witness): at a world where the host disabled selection, each listed
path re-enables it — silently undoing the host's disableSelect. -/
theorem c10_select_reenabled_witness :
    wC10.selEnabled = false ∧ c10Prop wC10 annX none annX modeNormalStr :=
  ⟨rfl, c10_select_reenabled wC10 annX none annX modeNormalStr⟩
